import Mathlib

/-!
Verification of the NOCTIS circuits core (`circuits/src`): a shallow
embedding in Lean 4 of the BabyBear Poseidon2 hash (`poseidon.rs`), the
BN254 field and Poseidon (`poseidon_bn254.rs`), the Merkle authentication
scheme (`merkle.rs`), and the two withdrawal circuits (`withdrawal.rs`,
`balance_withdrawal.rs`), together with theorems settling the frozen
claims about the natural-language specification.

Field elements are embedded as `Nat` canonical residues; machine-integer
wraparound is written as explicit `% 2^32`, `% 2^64`, `% 2^256` where the
source relies on it.  Fixed-size Rust arrays `[T; N]` are embedded as
lists with explicit length hypotheses in the theorems that need them.
-/

namespace Noctis

/-! ## BabyBear field (`p3_baby_bear::BabyBear`)

The BabyBear prime is 2013265921 = 2^31 - 2^27 + 1.  `BabyBear::new(v)`
maps a `u32` to the canonical residue `v % p`; field addition and
multiplication reduce modulo `p`; `as_canonical_u32` returns the
canonical residue.  We embed a BabyBear value as its canonical residue. -/

def bbP : Nat := 2013265921

/-- BabyBear::new on a machine integer: the canonical residue mod p. -/
def bbNew (v : Nat) : Nat := v % bbP

/-- BabyBear field addition. -/
def bbAdd (a b : Nat) : Nat := (a + b) % bbP

/-- BabyBear field multiplication. -/
def bbMul (a b : Nat) : Nat := (a * b) % bbP

/-! ## Poseidon2 over BabyBear (`poseidon.rs`)

Width 16, rate 8, capacity 8; 8 external (full S-box) rounds split 4+4
around 13 internal (first-lane S-box) rounds; S-box x^7; each round adds
the per-round 16-lane constant row (reduced mod p) then applies the
16 x 16 MDS matrix. -/

def WIDTH : Nat := 16
def RATE : Nat := 8
def EXTERNAL_ROUNDS : Nat := 8
def INTERNAL_ROUNDS : Nat := 13

/-- The constant table `ROUND_CONSTANTS : [[u32; 16]; 21]` of poseidon.rs,
transcribed row for row. -/
def ROUND_CONSTANTS : List (List Nat) := [
  [0x6a09e667, 0xbb67ae85, 0x3c6ef372, 0xa54ff53a, 0x510e527f, 0x9b05688c, 0x1f83d9ab, 0x5be0cd19,
   0x428a2f98, 0x71374491, 0xb5c0fbcf, 0xe9b5dba5, 0x3956c25b, 0x59f111f1, 0x923f82a4, 0xab1c5ed5],
  [0xd807aa98, 0x12835b01, 0x243185be, 0x550c7dc3, 0x72be5d74, 0x80deb1fe, 0x9bdc06a7, 0xc19bf174,
   0xe49b69c1, 0xefbe4786, 0x0fc19dc6, 0x240ca1cc, 0x2de92c6f, 0x4a7484aa, 0x5cb0a9dc, 0x76f988da],
  [0x983e5152, 0xa831c66d, 0xb00327c8, 0xbf597fc7, 0xc6e00bf3, 0xd5a79147, 0x06ca6351, 0x14292967,
   0x27b70a85, 0x2e1b2138, 0x4d2c6dfc, 0x53380d13, 0x650a7354, 0x766a0abb, 0x81c2c92e, 0x92722c85],
  [0xa2bfe8a1, 0xa81a664b, 0xc24b8b70, 0xc76c51a3, 0xd192e819, 0xd6990624, 0xf40e3585, 0x106aa070,
   0x19a4c116, 0x1e376c08, 0x2748774c, 0x34b0bcb5, 0x391c0cb3, 0x4ed8aa4a, 0x5b9cca4f, 0x682e6ff3],
  [0x748f82ee, 0x78a5636f, 0x84c87814, 0x8cc70208, 0x90befffa, 0xa4506ceb, 0xbef9a3f7, 0xc67178f2,
   0xca273ece, 0xd186b8c7, 0xeada7dd6, 0xf57d4f7f, 0x06f067aa, 0x0a637dc5, 0x113f9804, 0x1b710b35],
  [0x28db77f5, 0x32caab7b, 0x3c9ebe0a, 0x431d67c4, 0x4cc5d4be, 0x597f299c, 0x5fcb6fab, 0x6c44198c,
   0x7ba0ea2d, 0x8fe23c8a, 0x9723b5af, 0xa3c25a6f, 0xab6bcfa4, 0xb4293cf1, 0xc0ce967b, 0xd186b8c7],
  [0xe6d5d0c7, 0xf1da05bf, 0xfeba4cf4, 0x0a0e6e70, 0x14292967, 0x1f83d9ab, 0x27b70a85, 0x2e1b2138,
   0x3956c25b, 0x428a2f98, 0x4d2c6dfc, 0x53380d13, 0x5cb0a9dc, 0x650a7354, 0x6a09e667, 0x71374491],
  [0x766a0abb, 0x7ba0ea2d, 0x81c2c92e, 0x8cc70208, 0x92722c85, 0x983e5152, 0x9bdc06a7, 0xa2bfe8a1,
   0xa54ff53a, 0xa831c66d, 0xab1c5ed5, 0xb00327c8, 0xb5c0fbcf, 0xbef9a3f7, 0xc19bf174, 0xc24b8b70],
  [0xc6e00bf3, 0xc67178f2, 0xca273ece, 0xd192e819, 0xd5a79147, 0xd6990624, 0xd807aa98, 0xe49b69c1,
   0xe6d5d0c7, 0xe9b5dba5, 0xeada7dd6, 0xefbe4786, 0xf1da05bf, 0xf40e3585, 0xf57d4f7f, 0xfeba4cf4],
  [0x0a0e6e70, 0x0a637dc5, 0x0fc19dc6, 0x06ca6351, 0x06f067aa, 0x113f9804, 0x12835b01, 0x1b710b35,
   0x1e376c08, 0x240ca1cc, 0x243185be, 0x28db77f5, 0x2748774c, 0x2de92c6f, 0x32caab7b, 0x34b0bcb5],
  [0x391c0cb3, 0x3c6ef372, 0x3c9ebe0a, 0x431d67c4, 0x4a7484aa, 0x4cc5d4be, 0x4ed8aa4a, 0x510e527f,
   0x550c7dc3, 0x597f299c, 0x59f111f1, 0x5b9cca4f, 0x5fcb6fab, 0x682e6ff3, 0x6c44198c, 0x72be5d74],
  [0x76f988da, 0x78a5636f, 0x80deb1fe, 0x84c87814, 0x8fe23c8a, 0x90befffa, 0x923f82a4, 0x9723b5af,
   0xa3c25a6f, 0xa4506ceb, 0xa81a664b, 0xab6bcfa4, 0xb4293cf1, 0xbb67ae85, 0xbf597fc7, 0xc0ce967b],
  [0xc76c51a3, 0x106aa070, 0x19a4c116, 0x14292967, 0x1f83d9ab, 0x27b70a85, 0x2e1b2138, 0x3956c25b,
   0x428a2f98, 0x4d2c6dfc, 0x53380d13, 0x5cb0a9dc, 0x650a7354, 0x6a09e667, 0x71374491, 0x748f82ee],
  [0x766a0abb, 0x7ba0ea2d, 0x81c2c92e, 0x8cc70208, 0x92722c85, 0x983e5152, 0x9bdc06a7, 0xa2bfe8a1,
   0xa54ff53a, 0xa831c66d, 0xab1c5ed5, 0xb00327c8, 0xb5c0fbcf, 0xbef9a3f7, 0xc19bf174, 0xc24b8b70],
  [0xc6e00bf3, 0xc67178f2, 0xca273ece, 0xd192e819, 0xd5a79147, 0xd6990624, 0xd807aa98, 0xe49b69c1,
   0xe6d5d0c7, 0xe9b5dba5, 0xeada7dd6, 0xefbe4786, 0xf1da05bf, 0xf40e3585, 0xf57d4f7f, 0xfeba4cf4],
  [0x0a0e6e70, 0x0a637dc5, 0x0fc19dc6, 0x06ca6351, 0x06f067aa, 0x113f9804, 0x12835b01, 0x1b710b35,
   0x1e376c08, 0x240ca1cc, 0x243185be, 0x28db77f5, 0x2748774c, 0x2de92c6f, 0x32caab7b, 0x34b0bcb5],
  [0x391c0cb3, 0x3c6ef372, 0x3c9ebe0a, 0x431d67c4, 0x4a7484aa, 0x4cc5d4be, 0x4ed8aa4a, 0x510e527f,
   0x550c7dc3, 0x597f299c, 0x59f111f1, 0x5b9cca4f, 0x5fcb6fab, 0x682e6ff3, 0x6c44198c, 0x72be5d74],
  [0x76f988da, 0x78a5636f, 0x80deb1fe, 0x84c87814, 0x8fe23c8a, 0x90befffa, 0x923f82a4, 0x9723b5af,
   0xa3c25a6f, 0xa4506ceb, 0xa81a664b, 0xab6bcfa4, 0xb4293cf1, 0xbb67ae85, 0xbf597fc7, 0xc0ce967b],
  [0xc76c51a3, 0x106aa070, 0x19a4c116, 0x14292967, 0x1f83d9ab, 0x27b70a85, 0x2e1b2138, 0x3956c25b,
   0x428a2f98, 0x4d2c6dfc, 0x53380d13, 0x5cb0a9dc, 0x650a7354, 0x6a09e667, 0x71374491, 0x748f82ee],
  [0x766a0abb, 0x7ba0ea2d, 0x81c2c92e, 0x8cc70208, 0x92722c85, 0x983e5152, 0x9bdc06a7, 0xa2bfe8a1,
   0xa54ff53a, 0xa831c66d, 0xab1c5ed5, 0xb00327c8, 0xb5c0fbcf, 0xbef9a3f7, 0xc19bf174, 0xc24b8b70],
  [0xc6e00bf3, 0xc67178f2, 0xca273ece, 0xd192e819, 0xd5a79147, 0xd6990624, 0xd807aa98, 0xe49b69c1,
   0xe6d5d0c7, 0xe9b5dba5, 0xeada7dd6, 0xefbe4786, 0xf1da05bf, 0xf40e3585, 0xf57d4f7f, 0xfeba4cf4]
]

/-- The `MDS_MATRIX : [[u32; 16]; 16]` of poseidon.rs (circulant rows of
5, 7, 1, 3 repeated). -/
def MDS_MATRIX : List (List Nat) := [
  [5, 7, 1, 3, 5, 7, 1, 3, 5, 7, 1, 3, 5, 7, 1, 3],
  [3, 5, 7, 1, 3, 5, 7, 1, 3, 5, 7, 1, 3, 5, 7, 1],
  [1, 3, 5, 7, 1, 3, 5, 7, 1, 3, 5, 7, 1, 3, 5, 7],
  [7, 1, 3, 5, 7, 1, 3, 5, 7, 1, 3, 5, 7, 1, 3, 5],
  [5, 7, 1, 3, 5, 7, 1, 3, 5, 7, 1, 3, 5, 7, 1, 3],
  [3, 5, 7, 1, 3, 5, 7, 1, 3, 5, 7, 1, 3, 5, 7, 1],
  [1, 3, 5, 7, 1, 3, 5, 7, 1, 3, 5, 7, 1, 3, 5, 7],
  [7, 1, 3, 5, 7, 1, 3, 5, 7, 1, 3, 5, 7, 1, 3, 5],
  [5, 7, 1, 3, 5, 7, 1, 3, 5, 7, 1, 3, 5, 7, 1, 3],
  [3, 5, 7, 1, 3, 5, 7, 1, 3, 5, 7, 1, 3, 5, 7, 1],
  [1, 3, 5, 7, 1, 3, 5, 7, 1, 3, 5, 7, 1, 3, 5, 7],
  [7, 1, 3, 5, 7, 1, 3, 5, 7, 1, 3, 5, 7, 1, 3, 5],
  [5, 7, 1, 3, 5, 7, 1, 3, 5, 7, 1, 3, 5, 7, 1, 3],
  [3, 5, 7, 1, 3, 5, 7, 1, 3, 5, 7, 1, 3, 5, 7, 1],
  [1, 3, 5, 7, 1, 3, 5, 7, 1, 3, 5, 7, 1, 3, 5, 7],
  [7, 1, 3, 5, 7, 1, 3, 5, 7, 1, 3, 5, 7, 1, 3, 5]
]

/-- S-box x^7 of `Poseidon2State::sbox`, via x2, x4, x6 as in the source. -/
def sbox (x : Nat) : Nat :=
  let x2 := bbMul x x
  let x4 := bbMul x2 x2
  let x6 := bbMul x4 x2
  bbMul x6 x

/-- The full S-box layer (`full_sbox_layer`): S-box on every lane. -/
def fullSboxLayer (s : List Nat) : List Nat := s.map sbox

/-- The internal-round S-box layer (`partial_sbox_layer` in the source):
S-box on lane 0 only. -/
def firstLaneSboxLayer : List Nat → List Nat
  | [] => []
  | x :: rest => sbox x :: rest

/-- The MDS layer (`mds_layer`): result[i] starts at zero and accumulates
`BabyBear::new(MDS_MATRIX[i][j]) * state[j]` over j in order. -/
def mdsLayer (s : List Nat) : List Nat :=
  MDS_MATRIX.map (fun row =>
    (List.zipWith (fun m x => bbMul (bbNew m) x) row s).foldl bbAdd (bbNew 0))

/-- Round-constant addition (`add_constants`): each lane gets the round
constant reduced modulo the BabyBear prime (the source reduces with
`% 2013265921` before `BabyBear::new`). -/
def addConstants (s : List Nat) (round : Nat) : List Nat :=
  List.zipWith (fun x c => bbAdd x (bbNew (c % 2013265921))) s (ROUND_CONSTANTS.getD round [])

/-- The Poseidon2 permutation (`Poseidon2State::permute`): 4 external
rounds, 13 internal rounds at constant offset 4, then 4 external rounds
at constant offset 17. -/
def permute (s : List Nat) : List Nat :=
  let s1 := (List.range (EXTERNAL_ROUNDS / 2)).foldl
    (fun st r => mdsLayer (fullSboxLayer (addConstants st r))) s
  let s2 := (List.range INTERNAL_ROUNDS).foldl
    (fun st r => mdsLayer (firstLaneSboxLayer (addConstants st (EXTERNAL_ROUNDS / 2 + r)))) s1
  (List.range (EXTERNAL_ROUNDS / 2)).foldl
    (fun st r => mdsLayer (fullSboxLayer (addConstants st (EXTERNAL_ROUNDS / 2 + INTERNAL_ROUNDS + r)))) s2

/-- The zero-initialized 16-lane state (`Poseidon2State::new`). -/
def initState : List Nat := List.replicate WIDTH (bbNew 0)

/-- Lane-wise absorption helper: adds the i-th input into the i-th lane
and leaves the remaining lanes untouched. -/
def absorbGo : List Nat → List Nat → List Nat
  | s, [] => s
  | [], _ :: _ => []
  | x :: ss, v :: vs => bbAdd x v :: absorbGo ss vs

/-- Absorption (`Poseidon2State::absorb`): the source iterates over
`input.iter().enumerate().take(RATE)` adding input[i] into state[i], so
only the first `min (input.length) RATE` lanes change. -/
def absorb (s : List Nat) (input : List Nat) : List Nat := absorbGo s (input.take RATE)

/-- Squeeze (`Poseidon2State::squeeze`): lane 0. -/
def squeeze (s : List Nat) : Nat := s.headD 0

/-- The 2-to-1 hash `hash_pair` of poseidon.rs. -/
def hash_pair (l r : Nat) : Nat := squeeze (permute (absorb initState [l, r]))

/-- The commitment hash `hash_commitment` of poseidon.rs. -/
def hash_commitment (secret nullifierPreimage : Nat) : Nat := hash_pair secret nullifierPreimage

/-- The nullifier hash `hash_nullifier` of poseidon.rs. -/
def hash_nullifier (nullifierPreimage : Nat) : Nat :=
  squeeze (permute (absorb initState [nullifierPreimage]))

/-- Arbitrary-length hash `poseidon_hash_slice` of poseidon.rs. -/
def poseidon_hash_slice (input : List Nat) : Nat := squeeze (permute (absorb initState input))

/-- One-input hash `poseidon_hash` of poseidon.rs. -/
def poseidon_hash (input : Nat) : Nat := squeeze (permute (absorb initState [input]))

/-- Two-input hash `poseidon_hash_2` of poseidon.rs. -/
def poseidon_hash_2 (a b : Nat) : Nat := hash_pair a b

/-- Three-input hash `poseidon_hash_3` of poseidon.rs. -/
def poseidon_hash_3 (a b c : Nat) : Nat := squeeze (permute (absorb initState [a, b, c]))

/-! ## Merkle authentication (`merkle.rs`)

Depth 20.  `compute_merkle_root_slice` folds the leaf with the siblings;
its branch on `path_indices[i]` hashes `(current, sibling)` when the flag
is true (the source comments this as current-on-the-LEFT) and
`(sibling, current)` when false.  The builder pairwise-hashes layers
bottom-up, hashing a trailing odd element with zero.  `get_proof` records
siblings and the flag `!is_left` bottom-up, leaving the preinitialized
defaults (sibling 0, flag true) for the levels at or above the top. -/

def TREE_DEPTH : Nat := 20

/-- Loop body of `compute_merkle_root_slice`: the source iterates over
`i < min (path.length) (path_indices.length)`, which is the zip of the
two lists. -/
def merkleSliceGo (current : Nat) : List (Nat × Bool) → Nat
  | [] => current
  | (s, b) :: rest => merkleSliceGo (if b then hash_pair current s else hash_pair s current) rest

/-- The slice-based root fold `compute_merkle_root_slice` of merkle.rs. -/
def compute_merkle_root_slice (leaf : Nat) (path : List Nat) (path_indices : List Bool) : Nat :=
  merkleSliceGo leaf (path.zip path_indices)

/-- The fixed-array wrapper `compute_merkle_root` of merkle.rs; the
arrays `[BabyBear; 20]` and `[bool; 20]` are embedded as lists, with
length-20 hypotheses in the theorems that need them. -/
def compute_merkle_root (leaf : Nat) (path : List Nat) (path_indices : List Bool) : Nat :=
  compute_merkle_root_slice leaf path path_indices

/-- One pass of the builder loop body of `MerkleTree::build`: chunks of
two are hashed pairwise; a trailing odd element is hashed with
`BabyBear::new(0)`. -/
def hashLayer : List Nat → List Nat
  | [] => []
  | [x] => [hash_pair x (bbNew 0)]
  | x :: y :: rest => hash_pair x y :: hashLayer rest

theorem hashLayer_length (l : List Nat) : (hashLayer l).length = (l.length + 1) / 2 := by
  induction l using hashLayer.induct with
  | case1 => simp [hashLayer]
  | case2 x => simp [hashLayer]
  | case3 x y rest ih => simp [hashLayer, ih]; omega

/-- The `MerkleTree::build` loop: starting from the leaf layer, keep
hashing the last layer while it has more than one node. -/
def buildFrom (current : List Nat) : List (List Nat) :=
  if current.length ≤ 1 then [current]
  else current :: buildFrom (hashLayer current)
termination_by current.length
decreasing_by
  rw [hashLayer_length]; omega

structure MerkleTree where
  leaves : List Nat
  layers : List (List Nat)

/-- `MerkleTree::new`: stores the leaves as layer 0 and builds upwards. -/
def MerkleTree.new (leaves : List Nat) : MerkleTree :=
  { leaves := leaves, layers := buildFrom leaves }

/-- `MerkleTree::root`: the single node of the last layer, or 0 when the
tree is degenerate. -/
def MerkleTree.root (t : MerkleTree) : Nat :=
  match t.layers.getLast? with
  | none => bbNew 0
  | some l => l.headD (bbNew 0)

/-- Loop body of `MerkleTree::get_proof`: one entry per level up to
depth 20; once the level reaches `layers.len() - 1` the loop breaks and
the remaining entries keep the preinitialized defaults (sibling 0,
flag true).  `currentIndex` is halved at each level. -/
def proofGo (layers : List (List Nat)) (numLayers : Nat) :
    (remaining level currentIndex : Nat) → List (Nat × Bool)
  | 0, _, _ => []
  | remaining + 1, level, currentIndex =>
    if numLayers - 1 ≤ level then
      List.replicate (remaining + 1) (bbNew 0, true)
    else
      let layer := layers.getD level []
      let isLeft : Bool := currentIndex % 2 == 0
      let siblingIndex := if isLeft then currentIndex + 1 else currentIndex - 1
      let sib := if siblingIndex < layer.length then layer.getD siblingIndex 0 else bbNew 0
      (sib, !isLeft) :: proofGo layers numLayers remaining (level + 1) (currentIndex / 2)

/-- `MerkleTree::get_proof`: `None` for an out-of-range index, otherwise
the depth-20 sibling array and flag array. -/
def MerkleTree.get_proof (t : MerkleTree) (index : Nat) : Option (List Nat × List Bool) :=
  if t.leaves.length ≤ index then none
  else
    let entries := proofGo t.layers t.layers.length TREE_DEPTH 0 index
    some (entries.map Prod.fst, entries.map Prod.snd)

/-! ## The named validation failures

Each failed assertion of the two `generate_trace` functions aborts with
its own message; the embedding turns each distinct panic message into a
distinct constructor, and trace generation into a total function
returning `Except`. -/

inductive TraceFailure where
  | invalidMerkleProof
  | invalidNullifier
  | insufficientBalance
  | invalidChangeCommitment
  | changeCommitmentNotZero
deriving DecidableEq

/-! ## Fixed-denomination withdrawal (`withdrawal.rs`) -/

structure WithdrawalCircuit where
  merkle_root : Nat
  nullifier : Nat
  recipient : Nat
  denomination : Nat

structure WithdrawalWitness where
  secret : Nat
  nullifier_preimage : Nat
  merkle_path : List Nat
  path_indices : List Bool

namespace Withdrawal

/-- The commitment recomputed by `WithdrawalCircuit::generate_trace`. -/
def commitment (w : WithdrawalWitness) : Nat := hash_commitment w.secret w.nullifier_preimage

/-- The nullifier recomputed by `WithdrawalCircuit::generate_trace`. -/
def computedNullifier (w : WithdrawalWitness) : Nat := hash_nullifier w.nullifier_preimage

/-- The root recomputed by `WithdrawalCircuit::generate_trace`. -/
def computedRoot (w : WithdrawalWitness) : Nat :=
  compute_merkle_root (commitment w) w.merkle_path w.path_indices

/-- The trace row built after all checks pass: 4 public inputs, then the
20 path siblings, then the 20 flags as field 0/1. -/
def buildRow (c : WithdrawalCircuit) (w : WithdrawalWitness) : List Nat :=
  [c.merkle_root, c.nullifier, c.recipient, c.denomination]
    ++ w.merkle_path
    ++ w.path_indices.map (fun b => if b then bbNew 1 else bbNew 0)

/-- `WithdrawalCircuit::generate_trace`: checks the nullifier, then the
Merkle proof, each failed assertion aborting with its named failure; the
row is built only after both checks pass. -/
def generate_trace (c : WithdrawalCircuit) (w : WithdrawalWitness) :
    Except TraceFailure (List Nat) :=
  if computedNullifier w ≠ c.nullifier then .error .invalidNullifier
  else if computedRoot w ≠ c.merkle_root then .error .invalidMerkleProof
  else .ok (buildRow c w)

end Withdrawal

/-! ## Balance-based withdrawal (`balance_withdrawal.rs`) -/

/-- NUM_COLS = 5 + 64 + 20 * 2 = 149. -/
def NUM_COLS : Nat := 5 + 64 + TREE_DEPTH * 2

structure BalanceWithdrawalCircuit where
  merkle_root : Nat
  nullifier : Nat
  recipient : Nat
  amount : Nat
  change_commitment : Nat

/-- The private witness; `note_index` is a `u64`, embedded as a `Nat`
(the `as u32` cast in `generate_trace` is the explicit `% 2^32`). -/
structure BalanceWithdrawalWitness where
  spending_key : Nat
  balance : Nat
  randomness : Nat
  note_index : Nat
  merkle_path : List Nat
  path_indices : List Bool
  new_randomness : Nat

/-- Loop body of the local `compute_merkle_root_with_path` of
balance_withdrawal.rs: `indices[i] = true` hashes `(path[i], current)`
(the source comments this as current-is-right-child), false hashes
`(current, path[i])`. -/
def withPathGo (current : Nat) : List (Nat × Bool) → Nat
  | [] => current
  | (s, b) :: rest =>
    withPathGo (if b then poseidon_hash_2 s current else poseidon_hash_2 current s) rest

/-- The root fold `compute_merkle_root_with_path` of
balance_withdrawal.rs (fixed depth-20 arrays embedded as lists). -/
def compute_merkle_root_with_path (leaf : Nat) (path : List Nat) (indices : List Bool) : Nat :=
  withPathGo leaf (path.zip indices)

/-- `field_to_u64`: `as_canonical_u32` widened to `u64`, i.e. the
canonical residue. -/
def field_to_u64 (v : Nat) : Nat := v % bbP

namespace Balance

/-- Step 1 of `BalanceWithdrawalCircuit::generate_trace`. -/
def spendingKeyHash (w : BalanceWithdrawalWitness) : Nat := poseidon_hash w.spending_key

/-- Step 2: the recomputed note commitment. -/
def noteCommitment (w : BalanceWithdrawalWitness) : Nat :=
  poseidon_hash_3 (spendingKeyHash w) w.balance w.randomness

/-- Step 3: the recomputed root. -/
def computedRoot (w : BalanceWithdrawalWitness) : Nat :=
  compute_merkle_root_with_path (noteCommitment w) w.merkle_path w.path_indices

/-- The field cast of the note index: `Val::new(note_index as u32)`. -/
def noteIndexField (w : BalanceWithdrawalWitness) : Nat := bbNew (w.note_index % 2 ^ 32)

/-- Step 4: the recomputed nullifier. -/
def computedNullifier (w : BalanceWithdrawalWitness) : Nat :=
  poseidon_hash_2 w.spending_key (noteIndexField w)

/-- The change commitment expected on a partial withdrawal:
`poseidon_hash_3(spending_key_hash, Val::new(change_balance as u32),
new_randomness)`. -/
def expectedChange (c : BalanceWithdrawalCircuit) (w : BalanceWithdrawalWitness) : Nat :=
  poseidon_hash_3 (spendingKeyHash w)
    (bbNew ((field_to_u64 w.balance - field_to_u64 c.amount) % 2 ^ 32))
    w.new_randomness

/-- The trace row built after all checks pass: the 5 public inputs, the
64-bit LSB-first decomposition of `balance - amount`, the 20 siblings,
and the 20 flags as field 0/1. -/
def buildRow (c : BalanceWithdrawalCircuit) (w : BalanceWithdrawalWitness) : List Nat :=
  let diff := field_to_u64 w.balance - field_to_u64 c.amount
  [c.merkle_root, c.nullifier, c.recipient, c.amount, c.change_commitment]
    ++ (List.range 64).map (fun i => bbNew ((diff >>> i) % 2))
    ++ w.merkle_path
    ++ w.path_indices.map (fun b => if b then bbNew 1 else bbNew 0)

/-- `BalanceWithdrawalCircuit::generate_trace`: the checks run in source
order (Merkle proof, nullifier, balance range, change commitment), each
failed assertion aborting with its named failure before any trace element
is emitted; the full row is built only after every check passes. -/
def generate_trace (c : BalanceWithdrawalCircuit) (w : BalanceWithdrawalWitness) :
    Except TraceFailure (List Nat) :=
  if computedRoot w ≠ c.merkle_root then .error .invalidMerkleProof
  else if computedNullifier w ≠ c.nullifier then .error .invalidNullifier
  else if field_to_u64 w.balance < field_to_u64 c.amount then .error .insufficientBalance
  else if 0 < field_to_u64 w.balance - field_to_u64 c.amount then
    if expectedChange c w ≠ c.change_commitment then .error .invalidChangeCommitment
    else .ok (buildRow c w)
  else
    if c.change_commitment ≠ bbNew 0 then .error .changeCommitmentNotZero
    else .ok (buildRow c w)

end Balance

/-! ## BN254 field (`poseidon_bn254.rs`)

The source stores a value as 4 little-endian `u64` limbs.  We embed a
value as the `Nat` the limbs denote; limb-array wraparound (a dropped
carry out of the top limb, or keeping only the low 4 limbs of the 512-bit
schoolbook product) is the explicit `% 2^256`.  The source's `reduce`
(repeated subtraction of the modulus while `gte_modulus`) is embedded
literally as `bnReduceLoop` and proved equal to `% bnP` in
`bnReduceLoop_eq_mod`; the arithmetic operations use `% bnP` directly so
that concrete inputs evaluate. -/

/-- The BN254 scalar-field modulus (the decimal `BN254_MODULUS` string of
the source). -/
def bnP : Nat := 21888242871839275222246405745257275088548364400416034343698204186575808495617

/-- The four little-endian `MODULUS` limbs of the source denote `bnP`. -/
theorem bn_modulus_limbs :
    0x43e1f593f0000001 + 0x2833e84879b97091 * 2 ^ 64 + 0xb85045b68181585d * 2 ^ 128
      + 0x30644e72e131a029 * 2 ^ 192 = bnP := by
  norm_num [bnP]

/-- The literal `Bn254Field::reduce` loop: subtract the modulus while the
value is at least the modulus (`gte_modulus` is the lexicographic limb
comparison, i.e. numeric comparison). -/
def bnReduceLoop (x : Nat) : Nat :=
  if bnP ≤ x then bnReduceLoop (x - bnP) else x
termination_by x
decreasing_by
  have : 0 < bnP := by norm_num [bnP]
  omega

theorem bnReduceLoop_eq_mod (x : Nat) : bnReduceLoop x = x % bnP := by
  induction x using Nat.strong_induction_on with
  | _ x ih =>
    rw [bnReduceLoop]
    by_cases h : bnP ≤ x
    · have hp : 0 < bnP := by norm_num [bnP]
      rw [if_pos h, ih (x - bnP) (by omega)]
      conv_rhs => rw [← Nat.sub_add_cancel h]
      rw [Nat.add_mod_right]
    · rw [if_neg h, Nat.mod_eq_of_lt (by omega)]

structure Bn254Field where
  val : Nat
deriving DecidableEq

/-- `Bn254Field::ZERO`. -/
def Bn254Field.zeroF : Bn254Field := ⟨0⟩

/-- `Bn254Field::new` on a `u64` value. -/
def Bn254Field.new (v : Nat) : Bn254Field := ⟨v % 2 ^ 64⟩

/-- The `Add` impl: limbwise add with carries, the carry out of the top
limb dropped (`% 2^256`), then `from_limbs`, which runs `reduce`. -/
def Bn254Field.add (a b : Bn254Field) : Bn254Field :=
  ⟨((a.val + b.val) % 2 ^ 256) % bnP⟩

/-- The `Mul` impl: the exact 512-bit schoolbook product is computed in 8
limbs, but only the low 4 limbs are kept for the result (`% 2^256`); the
`overflow` accumulator built from the high limbs is never added back
before `reduce` runs.  The code comments call this a simplified
placeholder for a real Barrett/Montgomery reduction. -/
def Bn254Field.mul (a b : Bn254Field) : Bn254Field :=
  ⟨((a.val * b.val) % 2 ^ 256) % bnP⟩

/-- The x^5 S-box `Bn254Field::sbox` via x2 and x4, as in the source. -/
def Bn254Field.sbox (x : Bn254Field) : Bn254Field :=
  let x2 := x.mul x
  let x4 := x2.mul x2
  x4.mul x

/-! ### Hex parsing (`Bn254Field::from_hex`)

The input string is embedded as a list of characters.  The source strips
repeated leading `0x`, left-pads with zeros to 64 characters, splits into
four 16-character limb substrings, and parses each with
`u64::from_str_radix(_, 16).unwrap_or(0)` - a parse failure silently
becomes the limb 0. -/

/-- One hexadecimal digit, case-insensitive, as `from_str_radix` accepts. -/
def hexDigit (c : Char) : Option Nat :=
  if '0' ≤ c ∧ c ≤ '9' then some (c.toNat - '0'.toNat)
  else if 'a' ≤ c ∧ c ≤ 'f' then some (c.toNat - 'a'.toNat + 10)
  else if 'A' ≤ c ∧ c ≤ 'F' then some (c.toNat - 'A'.toNat + 10)
  else none

/-- `u64::from_str_radix(s, 16)` on a slice: fails on an empty slice or
on any non-hex character (the 16-character slices used below cannot
overflow a `u64`). -/
def fromStrRadix16 (s : List Char) : Option Nat :=
  if s.isEmpty then none
  else s.foldl
    (fun acc c =>
      match acc, hexDigit c with
      | some v, some d => some (v * 16 + d)
      | _, _ => none)
    (some 0)

/-- `str::trim_start_matches("0x")`: removes every leading repetition of
the prefix. -/
def trimHex0x : List Char → List Char
  | '0' :: 'x' :: rest => trimHex0x rest
  | s => s

/-- `Bn254Field::from_hex`: pad to 64 characters, parse the four limb
slices with `unwrap_or(0)`, combine little-endian, then `from_limbs`
(which reduces).  A malformed slice silently contributes the limb 0. -/
def Bn254Field.from_hex (hex : List Char) : Bn254Field :=
  let hex := trimHex0x hex
  let padded := if hex.length ≤ 64 then List.replicate (64 - hex.length) '0' ++ hex else hex
  let limb := fun (i : Nat) =>
    (fromStrRadix16 ((padded.drop (64 - (i + 1) * 16)).take 16)).getD 0
  ⟨(limb 0 + limb 1 * 2 ^ 64 + limb 2 * 2 ^ 128 + limb 3 * 2 ^ 192) % bnP⟩

/-! ### Poseidon T=3 over BN254 (`PoseidonT3`)

8 full rounds split 4+4 around 57 partial rounds.  The round-constant
step ignores both its round argument and the declared
`POSEIDON_T3_ROUND_CONSTANTS` table: every round adds the placeholder
constants 1, 2, 3 to the three lanes (the source comments say
"simplified - using basic constants"). -/

def T3_ROUNDS_F : Nat := 8
def T3_ROUNDS_P : Nat := 57

/-- `PoseidonT3::add_round_constants`: `state[i] += Bn254Field::new(i+1)`
for each lane; the `_round` argument is unused. -/
def t3AddRoundConstants (_round : Nat) (s : List Bn254Field) : List Bn254Field :=
  s.mapIdx (fun i x => x.add (Bn254Field.new (i + 1)))

/-- `PoseidonT3::full_sbox`. -/
def t3FullSbox (s : List Bn254Field) : List Bn254Field := s.map Bn254Field.sbox

/-- `PoseidonT3::partial_sbox`: the S-box on lane 0 only. -/
def t3FirstSbox : List Bn254Field → List Bn254Field
  | [] => []
  | x :: rest => x.sbox :: rest

/-- `PoseidonT3::mds_mix` with the hardcoded circulant
[[2,1,1],[1,2,1],[1,1,2]]. -/
def t3MdsMix (s : List Bn254Field) : List Bn254Field :=
  match s with
  | [a, b, c] =>
    let two := Bn254Field.new 2
    let one := Bn254Field.new 1
    [((two.mul a).add (one.mul b)).add (one.mul c),
     ((one.mul a).add (two.mul b)).add (one.mul c),
     ((one.mul a).add (one.mul b)).add (two.mul c)]
  | s => s

/-- `PoseidonT3::permute`: 4 full rounds, 57 partial rounds at offset 4,
4 full rounds at offset 61. -/
def t3Permute (s : List Bn254Field) : List Bn254Field :=
  let s1 := (List.range (T3_ROUNDS_F / 2)).foldl
    (fun st r => t3MdsMix (t3FullSbox (t3AddRoundConstants r st))) s
  let s2 := (List.range T3_ROUNDS_P).foldl
    (fun st r => t3MdsMix (t3FirstSbox (t3AddRoundConstants (T3_ROUNDS_F / 2 + r) st))) s1
  (List.range (T3_ROUNDS_F / 2)).foldl
    (fun st r => t3MdsMix (t3FullSbox (t3AddRoundConstants (T3_ROUNDS_F / 2 + T3_ROUNDS_P + r) st))) s2

/-- `PoseidonT3::hash`: state `[inputs[0], inputs[1], ZERO]`, permute,
then lane 0. -/
def t3Hash (a b : Bn254Field) : Bn254Field :=
  (t3Permute [a, b, Bn254Field.zeroF]).headD Bn254Field.zeroF

/-- The public `hash_pair` of poseidon_bn254.rs. -/
def hash_pairB (left right : Bn254Field) : Bn254Field := t3Hash left right

/-- Loop body of the BN254 `compute_merkle_root`: `indices[i] = true`
hashes `(current, sibling)` (the source comments this as
current-on-left), false hashes `(sibling, current)`.  The source indexes
`indices[i]` while iterating over `path`; the zip matches it whenever
`indices` is at least as long as `path` (the claims only use equal
length 20). -/
def bnMerkleGo (current : Bn254Field) : List (Bn254Field × Bool) → Bn254Field
  | [] => current
  | (s, b) :: rest => bnMerkleGo (if b then hash_pairB current s else hash_pairB s current) rest

/-- The BN254 `compute_merkle_root` of poseidon_bn254.rs. -/
def compute_merkle_rootB (leaf : Bn254Field) (path : List Bn254Field) (indices : List Bool) :
    Bn254Field :=
  bnMerkleGo leaf (path.zip indices)

/-! ## Root-from-path as the spec words it

Section 4.4 of the spec: given leaf L, siblings S, flags F where
`F[i] = true` means the node at level i is the RIGHT operand:
`current := L; for i in 0..D: current := F[i] ? Hash(S[i], current)
: Hash(current, S[i])`.  This is the refinement target the three source
implementations are compared against; it is parametric in the hash-pair
function so that it serves both field families. -/

def specRootGo {α : Type} (hash : α → α → α) (current : α) : List (α × Bool) → α
  | [] => current
  | (s, b) :: rest => specRootGo hash (if b then hash s current else hash current s) rest

/-- Root-from-path exactly as worded in the spec. -/
def specRootFromPath {α : Type} (hash : α → α → α) (leaf : α) (sibs : List α)
    (flags : List Bool) : α :=
  specRootGo hash leaf (sibs.zip flags)

/-! ## Helper lemmas -/

theorem withPathGo_eq_spec (l : List (Nat × Bool)) (cur : Nat) :
    withPathGo cur l = specRootGo poseidon_hash_2 cur l := by
  induction l generalizing cur with
  | nil => rfl
  | cons hd tl ih =>
    obtain ⟨s, b⟩ := hd
    cases b <;> simp [withPathGo, specRootGo, ih]

theorem merkleSliceGo_eq_spec (l : List (Nat × Bool)) (cur : Nat) :
    merkleSliceGo cur l = specRootGo hash_pair cur (l.map (Prod.map id not)) := by
  induction l generalizing cur with
  | nil => rfl
  | cons hd tl ih =>
    obtain ⟨s, b⟩ := hd
    cases b <;> simp [merkleSliceGo, specRootGo, ih, Prod.map]

theorem bnMerkleGo_eq_spec (l : List (Bn254Field × Bool)) (cur : Bn254Field) :
    bnMerkleGo cur l = specRootGo hash_pairB cur (l.map (Prod.map id not)) := by
  induction l generalizing cur with
  | nil => rfl
  | cons hd tl ih =>
    obtain ⟨s, b⟩ := hd
    cases b <;> simp [bnMerkleGo, specRootGo, ih, Prod.map]

theorem buildFrom_pair (a b : Nat) : buildFrom [a, b] = [[a, b], [hash_pair a b]] := by
  rw [buildFrom]
  simp [hashLayer]
  rw [buildFrom]
  simp

/-- The weighted bit sum: the LSB-first binary columns of d, as built by
`Balance.buildRow`, weighted by powers of two, sum to `d % 2^n`. -/
theorem bit_columns_sum (n d : Nat) :
    ((List.range n).map (fun i => bbNew ((d >>> i) % 2) * 2 ^ i)).sum = d % 2 ^ n := by
  induction n with
  | zero => simp [Nat.mod_one]
  | succ n ih =>
    have hbb : bbNew ((d >>> n) % 2) = (d >>> n) % 2 := by
      have h2 : (d >>> n) % 2 < 2 := Nat.mod_lt _ (by norm_num)
      exact Nat.mod_eq_of_lt (lt_of_lt_of_le h2 (by norm_num [bbP]))
    rw [List.range_succ, List.map_append, List.sum_append]
    simp only [List.map_cons, List.map_nil, List.sum_cons, List.sum_nil, ih, hbb]
    rw [Nat.shiftRight_eq_div_pow, pow_succ, Nat.mod_mul]
    ring

theorem absorbGo_getD (s v : List Nat) (i : Nat) (hi : i < s.length) :
    (absorbGo s v).getD i 0 =
      if i < v.length then bbAdd (s.getD i 0) (v.getD i 0) else s.getD i 0 := by
  induction s generalizing v i with
  | nil => simp at hi
  | cons x ss ih =>
    cases v with
    | nil => simp [absorbGo]
    | cons w vs =>
      cases i with
      | zero => simp [absorbGo]
      | succ j =>
        simp only [absorbGo, List.getD_cons_succ, List.length_cons]
        rw [ih vs j (by simpa using hi)]
        simp [Nat.succ_lt_succ_iff]

/-- `generate_trace` of the balance circuit returns `.ok` exactly on the
complete row when all checks pass on a partial withdrawal. -/
theorem balance_ok_partialWithdrawal (c : BalanceWithdrawalCircuit)
    (w : BalanceWithdrawalWitness)
    (h1 : Balance.computedRoot w = c.merkle_root)
    (h2 : Balance.computedNullifier w = c.nullifier)
    (h3 : field_to_u64 c.amount ≤ field_to_u64 w.balance)
    (h4 : 0 < field_to_u64 w.balance - field_to_u64 c.amount)
    (h5 : Balance.expectedChange c w = c.change_commitment) :
    Balance.generate_trace c w = .ok (Balance.buildRow c w) := by
  simp [Balance.generate_trace, h1, h2, Nat.not_lt.mpr h3, h4, h5]

/-- `generate_trace` of the balance circuit returns `.ok` exactly on the
complete row when all checks pass on a full withdrawal. -/
theorem balance_ok_fullWithdrawal (c : BalanceWithdrawalCircuit)
    (w : BalanceWithdrawalWitness)
    (h1 : Balance.computedRoot w = c.merkle_root)
    (h2 : Balance.computedNullifier w = c.nullifier)
    (h3 : field_to_u64 c.amount ≤ field_to_u64 w.balance)
    (h4 : field_to_u64 w.balance - field_to_u64 c.amount = 0)
    (h5 : c.change_commitment = bbNew 0) :
    Balance.generate_trace c w = .ok (Balance.buildRow c w) := by
  simp [Balance.generate_trace, h1, h2, Nat.not_lt.mpr h3, h4, h5]

/-- Any `.ok` result of the balance circuit is the complete built row. -/
theorem balance_ok_shape (c : BalanceWithdrawalCircuit) (w : BalanceWithdrawalWitness)
    (t : List Nat) (h : Balance.generate_trace c w = .ok t) :
    t = Balance.buildRow c w := by
  unfold Balance.generate_trace at h
  split_ifs at h <;> simp_all

/-- The predicate "every check of the balance circuit passes". -/
def Balance.checksPass (c : BalanceWithdrawalCircuit) (w : BalanceWithdrawalWitness) : Prop :=
  Balance.computedRoot w = c.merkle_root
  ∧ Balance.computedNullifier w = c.nullifier
  ∧ field_to_u64 c.amount ≤ field_to_u64 w.balance
  ∧ (0 < field_to_u64 w.balance - field_to_u64 c.amount →
      Balance.expectedChange c w = c.change_commitment)
  ∧ (field_to_u64 w.balance - field_to_u64 c.amount = 0 → c.change_commitment = bbNew 0)

/-- The predicate "every check of the fixed-denomination circuit passes". -/
def Withdrawal.checksPass (c : WithdrawalCircuit) (w : WithdrawalWitness) : Prop :=
  Withdrawal.computedNullifier w = c.nullifier ∧ Withdrawal.computedRoot w = c.merkle_root

/-! ## The claims -/

/-- C1: the claim says `Mul` on `Bn254Field` returns the canonical
residue of the full integer product, including when the 512-bit product
exceeds 2^256.  The code instead keeps only the low 256 bits of the
product (the `overflow` accumulator is computed and then discarded), so
at the canonical operands 2^128 and 2^128 the code returns zero while the
true residue 2^256 mod p is nonzero. -/
theorem bn254_mul_drops_high_limbs :
    (2 ^ 128 : Nat) < bnP
    ∧ Bn254Field.mul ⟨2 ^ 128⟩ ⟨2 ^ 128⟩ = Bn254Field.zeroF
    ∧ ((2 ^ 128 : Nat) * 2 ^ 128) % bnP ≠ 0
    ∧ (Bn254Field.mul ⟨2 ^ 128⟩ ⟨2 ^ 128⟩).val ≠ ((2 ^ 128 : Nat) * 2 ^ 128) % bnP := by
  refine ⟨by norm_num [bnP], ?_, by norm_num [bnP], ?_⟩
  · show Bn254Field.mk (((2 ^ 128 * 2 ^ 128) % 2 ^ 256) % bnP) = ⟨0⟩
    norm_num
  · show ((2 ^ 128 * 2 ^ 128) % 2 ^ 256) % bnP ≠ (2 ^ 128 * 2 ^ 128) % bnP
    norm_num [bnP]

/-- C7: the claim says malformed hex is reported as a recoverable typed
error and never silently mapped to a field element.  `from_hex` instead
parses each limb with `unwrap_or(0)`: the malformed input "zz" silently
produces the same field element as the well-formed input "00", namely
zero, and no error channel exists. -/
theorem from_hex_silently_zeroes_malformed :
    Bn254Field.from_hex ['z', 'z'] = Bn254Field.from_hex ['0', '0']
    ∧ (Bn254Field.from_hex ['z', 'z']).val = 0 := by
  constructor <;> decide

/-- C8: the claim says the BN254 Poseidon round constants reproduce the
published on-chain constants bit-for-bit, or the implementation fails
loudly.  The code does neither: `add_round_constants` ignores its round
argument entirely and adds the fixed placeholder constants 1, 2, 3 to the
three lanes in every round, so it cannot match any round-dependent
published schedule, and no failure occurs. -/
theorem t3_round_constants_are_placeholders :
    (∀ (r r' : Nat) (s : List Bn254Field), t3AddRoundConstants r s = t3AddRoundConstants r' s)
    ∧ (∀ (r : Nat) (a b c : Bn254Field),
        t3AddRoundConstants r [a, b, c]
          = [a.add (Bn254Field.new 1), b.add (Bn254Field.new 2), c.add (Bn254Field.new 3)]) :=
  ⟨fun _ _ _ => rfl, fun _ _ _ _ => rfl⟩

/-- C10: in the balance circuit the u64 `note_index` enters only through
`Val::new(note_index as u32)`, so adding any multiple of 2^32 leaves the
computed nullifier and the whole trace-generation outcome unchanged. -/
theorem note_index_truncated_mod_2_32 (c : BalanceWithdrawalCircuit)
    (w : BalanceWithdrawalWitness) (k : Nat) :
    Balance.computedNullifier { w with note_index := w.note_index + k * 2 ^ 32 }
        = Balance.computedNullifier w
    ∧ Balance.generate_trace c { w with note_index := w.note_index + k * 2 ^ 32 }
        = Balance.generate_trace c w := by
  obtain ⟨sk, bal, rnd, ni, mp, pi, nr⟩ := w
  have h : (ni + k * 2 ^ 32) % 2 ^ 32 = ni % 2 ^ 32 := Nat.add_mul_mod_self_right ni k (2 ^ 32)
  constructor
  · simp [Balance.computedNullifier, Balance.noteIndexField, h]
  · simp [Balance.generate_trace, Balance.computedNullifier, Balance.noteIndexField, h,
      Balance.computedRoot, Balance.noteCommitment, Balance.spendingKeyHash,
      Balance.expectedChange, Balance.buildRow]

/-- C2 (amended): each root-from-path fold starts from the leaf and
iterates through all levels, but the three implementations do not share
one flag convention: the balance-circuit fold follows the spec convention
(flag true means the current node is the RIGHT operand), while the
small-field slice fold and the BN254 fold both use the complementary
convention (flag true hashes the current node as the LEFT operand), i.e.
they equal the spec fold with every flag negated. -/
theorem root_from_path_conventions :
    (∀ (leaf : Nat) (path : List Nat) (idx : List Bool),
      compute_merkle_root_with_path leaf path idx = specRootFromPath poseidon_hash_2 leaf path idx)
    ∧ (∀ (leaf : Nat) (path : List Nat) (idx : List Bool),
      compute_merkle_root_slice leaf path idx
        = specRootFromPath hash_pair leaf path (idx.map not))
    ∧ (∀ (leaf : Bn254Field) (path : List Bn254Field) (idx : List Bool),
      compute_merkle_rootB leaf path idx
        = specRootFromPath hash_pairB leaf path (idx.map not)) := by
  refine ⟨fun leaf path idx => ?_, fun leaf path idx => ?_, fun leaf path idx => ?_⟩
  · rw [compute_merkle_root_with_path, specRootFromPath, withPathGo_eq_spec]
  · rw [compute_merkle_root_slice, specRootFromPath, List.zip_map_right, merkleSliceGo_eq_spec]
  · rw [compute_merkle_rootB, specRootFromPath, List.zip_map_right, bnMerkleGo_eq_spec]

theorem getD_take (l : List Nat) (n i : Nat) (h : i < n) :
    (l.take n).getD i 0 = l.getD i 0 := by
  induction l generalizing n i with
  | nil => simp
  | cons x xs ih =>
    cases n with
    | zero => omega
    | succ m =>
      cases i with
      | zero => simp
      | succ j => simpa using ih m j (by omega)

/-- C9: absorption adds input[i] into lane i exactly for
i < min (input length) RATE and leaves every other lane - in particular
the capacity lanes 8..16 - unchanged; consequently two inputs of length
at least 8 that agree on their first 8 elements hash to the same digest
under `poseidon_hash_slice`. -/
theorem sponge_rate_and_capacity :
    (∀ (s input : List Nat) (i : Nat), i < s.length →
      (absorb s input).getD i 0 =
        if i < min input.length RATE then bbAdd (s.getD i 0) (input.getD i 0)
        else s.getD i 0)
    ∧ (∀ (input input' : List Nat), 8 ≤ input.length → 8 ≤ input'.length →
        input.take 8 = input'.take 8 →
        poseidon_hash_slice input = poseidon_hash_slice input') := by
  constructor
  · intro s input i hi
    rw [absorb, absorbGo_getD s _ i hi, List.length_take, Nat.min_comm RATE input.length]
    split_ifs with h
    · rw [getD_take input RATE i (lt_of_lt_of_le h (Nat.min_le_right _ _))]
    · rfl
  · intro input input' hl hl' htake
    simp only [poseidon_hash_slice, absorb, RATE, htake]

/-- Witness for C9: concrete lanes and two concrete inputs of lengths 9
and 10 agreeing on their first 8 elements. -/
theorem sponge_rate_and_capacity_witness :
    (0 < (List.replicate 16 (0 : Nat)).length
      ∧ 8 ≤ ([1, 2, 3, 4, 5, 6, 7, 8, 9] : List Nat).length
      ∧ 8 ≤ ([1, 2, 3, 4, 5, 6, 7, 8, 100, 200] : List Nat).length
      ∧ ([1, 2, 3, 4, 5, 6, 7, 8, 9] : List Nat).take 8
          = ([1, 2, 3, 4, 5, 6, 7, 8, 100, 200] : List Nat).take 8)
    ∧ (absorb (List.replicate 16 0) [1, 2, 3, 4, 5, 6, 7, 8, 9]).getD 0 0 =
        (if 0 < min ([1, 2, 3, 4, 5, 6, 7, 8, 9] : List Nat).length RATE
          then bbAdd ((List.replicate 16 (0 : Nat)).getD 0 0)
            (([1, 2, 3, 4, 5, 6, 7, 8, 9] : List Nat).getD 0 0)
          else (List.replicate 16 (0 : Nat)).getD 0 0)
    ∧ poseidon_hash_slice [1, 2, 3, 4, 5, 6, 7, 8, 9]
        = poseidon_hash_slice [1, 2, 3, 4, 5, 6, 7, 8, 100, 200] :=
  ⟨⟨by decide, by decide, by decide, by decide⟩,
    sponge_rate_and_capacity.1 (List.replicate 16 0) [1, 2, 3, 4, 5, 6, 7, 8, 9] 0 (by decide),
    sponge_rate_and_capacity.2 [1, 2, 3, 4, 5, 6, 7, 8, 9] [1, 2, 3, 4, 5, 6, 7, 8, 100, 200]
      (by decide) (by decide) (by decide)⟩

/-- C5: trace construction is atomic in both circuit variants: whenever
every validation check passes, `generate_trace` returns exactly the
complete built row, and whenever any check fails it returns a named
failure and no row at all. -/
theorem generate_trace_atomic :
    (∀ (c : WithdrawalCircuit) (w : WithdrawalWitness),
      (Withdrawal.checksPass c w
          ∧ Withdrawal.generate_trace c w = .ok (Withdrawal.buildRow c w))
      ∨ (¬ Withdrawal.checksPass c w ∧ ∃ e, Withdrawal.generate_trace c w = .error e))
    ∧ (∀ (c : BalanceWithdrawalCircuit) (w : BalanceWithdrawalWitness),
      (Balance.checksPass c w ∧ Balance.generate_trace c w = .ok (Balance.buildRow c w))
      ∨ (¬ Balance.checksPass c w ∧ ∃ e, Balance.generate_trace c w = .error e)) := by
  constructor
  · intro c w
    by_cases h1 : Withdrawal.computedNullifier w = c.nullifier
    · by_cases h2 : Withdrawal.computedRoot w = c.merkle_root
      · exact Or.inl ⟨⟨h1, h2⟩, by simp [Withdrawal.generate_trace, h1, h2]⟩
      · exact Or.inr ⟨fun hc => h2 hc.2,
          ⟨.invalidMerkleProof, by simp [Withdrawal.generate_trace, h1, h2]⟩⟩
    · exact Or.inr ⟨fun hc => h1 hc.1,
        ⟨.invalidNullifier, by simp [Withdrawal.generate_trace, h1]⟩⟩
  · intro c w
    by_cases h1 : Balance.computedRoot w = c.merkle_root
    · by_cases h2 : Balance.computedNullifier w = c.nullifier
      · by_cases h3 : field_to_u64 w.balance < field_to_u64 c.amount
        · exact Or.inr ⟨fun hc => absurd hc.2.2.1 (Nat.not_le.mpr h3),
            ⟨.insufficientBalance, by simp [Balance.generate_trace, h1, h2, h3]⟩⟩
        · by_cases h4 : 0 < field_to_u64 w.balance - field_to_u64 c.amount
          · by_cases h5 : Balance.expectedChange c w = c.change_commitment
            · exact Or.inl ⟨⟨h1, h2, Nat.not_lt.mp h3, fun _ => h5, fun h0 => by omega⟩,
                balance_ok_partialWithdrawal c w h1 h2 (Nat.not_lt.mp h3) h4 h5⟩
            · exact Or.inr ⟨fun hc => h5 (hc.2.2.2.1 h4),
                ⟨.invalidChangeCommitment,
                  by simp [Balance.generate_trace, h1, h2, h3, h4, h5]⟩⟩
          · have h4z : field_to_u64 w.balance - field_to_u64 c.amount = 0 := by omega
            by_cases h5 : c.change_commitment = bbNew 0
            · exact Or.inl ⟨⟨h1, h2, Nat.not_lt.mp h3, fun hgt => absurd hgt h4, fun _ => h5⟩,
                balance_ok_fullWithdrawal c w h1 h2 (Nat.not_lt.mp h3) h4z h5⟩
            · exact Or.inr ⟨fun hc => h5 (hc.2.2.2.2 h4z),
                ⟨.changeCommitmentNotZero,
                  by simp [Balance.generate_trace, h1, h2, h3, h4z, h5]⟩⟩
      · exact Or.inr ⟨fun hc => h2 hc.2.1,
          ⟨.invalidNullifier, by simp [Balance.generate_trace, h1, h2]⟩⟩
    · exact Or.inr ⟨fun hc => h1 hc.1,
        ⟨.invalidMerkleProof, by simp [Balance.generate_trace, h1]⟩⟩

/-- C4: for a balance-withdrawal witness that has already passed the
Merkle, nullifier and balance checks, a strict partial withdrawal
succeeds exactly when the public change commitment equals
Hash3(secretHash, balance - amount, newRandomness) and otherwise fails
with `invalidChangeCommitment`; a full withdrawal succeeds exactly when
the change commitment is the field zero and otherwise fails with the
distinct failure `changeCommitmentNotZero`. -/
theorem balance_change_commitment_check (c : BalanceWithdrawalCircuit)
    (w : BalanceWithdrawalWitness)
    (h1 : Balance.computedRoot w = c.merkle_root)
    (h2 : Balance.computedNullifier w = c.nullifier)
    (h3 : field_to_u64 c.amount ≤ field_to_u64 w.balance) :
    (field_to_u64 c.amount < field_to_u64 w.balance →
      ((∃ t, Balance.generate_trace c w = .ok t)
          ↔ c.change_commitment = Balance.expectedChange c w)
      ∧ (c.change_commitment ≠ Balance.expectedChange c w →
          Balance.generate_trace c w = .error .invalidChangeCommitment))
    ∧ (field_to_u64 c.amount = field_to_u64 w.balance →
      ((∃ t, Balance.generate_trace c w = .ok t) ↔ c.change_commitment = bbNew 0)
      ∧ (c.change_commitment ≠ bbNew 0 →
          Balance.generate_trace c w = .error .changeCommitmentNotZero)) := by
  constructor
  · intro hlt
    have h4 : 0 < field_to_u64 w.balance - field_to_u64 c.amount := by omega
    have key : Balance.generate_trace c w =
        if Balance.expectedChange c w = c.change_commitment
        then .ok (Balance.buildRow c w) else .error .invalidChangeCommitment := by
      by_cases h5 : Balance.expectedChange c w = c.change_commitment
      · rw [if_pos h5]; exact balance_ok_partialWithdrawal c w h1 h2 h3 h4 h5
      · rw [if_neg h5]
        simp [Balance.generate_trace, h1, h2, Nat.not_lt.mpr h3, h4, h5]
    constructor
    · constructor
      · rintro ⟨t, ht⟩
        by_cases h5 : Balance.expectedChange c w = c.change_commitment
        · exact h5.symm
        · rw [key, if_neg h5] at ht; cases ht
      · intro hcc; exact ⟨_, by rw [key, if_pos hcc.symm]⟩
    · intro hne; rw [key, if_neg (fun h => hne h.symm)]
  · intro heq
    have h4z : field_to_u64 w.balance - field_to_u64 c.amount = 0 := by omega
    have key : Balance.generate_trace c w =
        if c.change_commitment = bbNew 0
        then .ok (Balance.buildRow c w) else .error .changeCommitmentNotZero := by
      by_cases h5 : c.change_commitment = bbNew 0
      · rw [if_pos h5]; exact balance_ok_fullWithdrawal c w h1 h2 h3 h4z h5
      · rw [if_neg h5]
        simp [Balance.generate_trace, h1, h2, Nat.not_lt.mpr h3, h4z, h5]
    constructor
    · constructor
      · rintro ⟨t, ht⟩
        by_cases h5 : c.change_commitment = bbNew 0
        · exact h5
        · rw [key, if_neg h5] at ht; cases ht
      · intro hcc; exact ⟨_, by rw [key, if_pos hcc]⟩
    · intro hne; rw [key, if_neg hne]

/-! ### Concrete witness instance: the partial-withdrawal scenario of the
source tests (balance 10000, amount 6000, change 4000). -/

def w0 : BalanceWithdrawalWitness :=
  { spending_key := 12345, balance := 10000, randomness := 99999, note_index := 5,
    merkle_path := List.replicate TREE_DEPTH 0,
    path_indices := List.replicate TREE_DEPTH false,
    new_randomness := 88888 }

def cc0 : Nat :=
  poseidon_hash_3 (Balance.spendingKeyHash w0)
    (bbNew ((field_to_u64 10000 - field_to_u64 6000) % 2 ^ 32)) 88888

def c0 : BalanceWithdrawalCircuit :=
  { merkle_root := Balance.computedRoot w0, nullifier := Balance.computedNullifier w0,
    recipient := 0xABCD, amount := 6000, change_commitment := cc0 }

/-- Witness for C4 at the concrete partial-withdrawal instance. -/
theorem balance_change_commitment_check_witness :
    (Balance.computedRoot w0 = c0.merkle_root)
    ∧ (Balance.computedNullifier w0 = c0.nullifier)
    ∧ (field_to_u64 c0.amount ≤ field_to_u64 w0.balance)
    ∧ ((field_to_u64 c0.amount < field_to_u64 w0.balance →
        ((∃ t, Balance.generate_trace c0 w0 = .ok t)
            ↔ c0.change_commitment = Balance.expectedChange c0 w0)
        ∧ (c0.change_commitment ≠ Balance.expectedChange c0 w0 →
            Balance.generate_trace c0 w0 = .error .invalidChangeCommitment))
      ∧ (field_to_u64 c0.amount = field_to_u64 w0.balance →
        ((∃ t, Balance.generate_trace c0 w0 = .ok t) ↔ c0.change_commitment = bbNew 0)
        ∧ (c0.change_commitment ≠ bbNew 0 →
            Balance.generate_trace c0 w0 = .error .changeCommitmentNotZero))) :=
  ⟨rfl, rfl, by decide, balance_change_commitment_check c0 w0 rfl rfl (by decide)⟩

/-- C6: every successful balance-withdrawal trace row has width 149 and
is exactly the five public inputs, the 64 LSB-first difference bits, the
20 siblings, and the 20 flags encoded as field 0/1, and the bit columns
weighted by powers of two sum to balance - amount. -/
theorem balance_trace_row_layout (c : BalanceWithdrawalCircuit)
    (w : BalanceWithdrawalWitness) (t : List Nat)
    (hok : Balance.generate_trace c w = .ok t)
    (hp : w.merkle_path.length = TREE_DEPTH) (hf : w.path_indices.length = TREE_DEPTH) :
    t.length = NUM_COLS
    ∧ t = [c.merkle_root, c.nullifier, c.recipient, c.amount, c.change_commitment]
        ++ (List.range 64).map (fun i =>
              bbNew (((field_to_u64 w.balance - field_to_u64 c.amount) >>> i) % 2))
        ++ w.merkle_path
        ++ w.path_indices.map (fun b => if b then bbNew 1 else bbNew 0)
    ∧ ((List.range 64).map (fun i =>
          bbNew (((field_to_u64 w.balance - field_to_u64 c.amount) >>> i) % 2) * 2 ^ i)).sum
        = field_to_u64 w.balance - field_to_u64 c.amount := by
  have ht : t = Balance.buildRow c w := balance_ok_shape c w t hok
  subst ht
  refine ⟨?_, rfl, ?_⟩
  · simp [Balance.buildRow, NUM_COLS, TREE_DEPTH, hp, hf]
  · have hlt : field_to_u64 w.balance < 2 ^ 64 :=
      lt_of_lt_of_le (Nat.mod_lt _ (by norm_num [bbP])) (by norm_num [bbP])
    rw [bit_columns_sum 64 (field_to_u64 w.balance - field_to_u64 c.amount),
      Nat.mod_eq_of_lt (by omega)]

/-- Witness for C6 at the concrete partial-withdrawal instance. -/
theorem balance_trace_row_layout_witness :
    Balance.generate_trace c0 w0 = .ok (Balance.buildRow c0 w0)
    ∧ w0.merkle_path.length = TREE_DEPTH
    ∧ w0.path_indices.length = TREE_DEPTH
    ∧ ((Balance.buildRow c0 w0).length = NUM_COLS
      ∧ Balance.buildRow c0 w0
          = [c0.merkle_root, c0.nullifier, c0.recipient, c0.amount, c0.change_commitment]
            ++ (List.range 64).map (fun i =>
                  bbNew (((field_to_u64 w0.balance - field_to_u64 c0.amount) >>> i) % 2))
            ++ w0.merkle_path
            ++ w0.path_indices.map (fun b => if b then bbNew 1 else bbNew 0)
      ∧ ((List.range 64).map (fun i =>
            bbNew (((field_to_u64 w0.balance - field_to_u64 c0.amount) >>> i) % 2) * 2 ^ i)).sum
          = field_to_u64 w0.balance - field_to_u64 c0.amount) := by
  have hok : Balance.generate_trace c0 w0 = .ok (Balance.buildRow c0 w0) :=
    balance_ok_partialWithdrawal c0 w0 rfl rfl (by decide) (by decide)
      (by simp only [Balance.expectedChange, c0, cc0, w0])
  exact ⟨hok, by decide, by decide,
    balance_trace_row_layout c0 w0 _ hok (by decide) (by decide)⟩

/-- Sibling array of the concrete depth-20 counterexample input. -/
def cexPathB : List Bn254Field :=
  [⟨2⟩, ⟨0⟩, ⟨0⟩, ⟨0⟩, ⟨0⟩, ⟨0⟩, ⟨0⟩, ⟨0⟩, ⟨0⟩, ⟨0⟩,
   ⟨0⟩, ⟨0⟩, ⟨0⟩, ⟨0⟩, ⟨0⟩, ⟨0⟩, ⟨0⟩, ⟨0⟩, ⟨0⟩, ⟨0⟩]

/-- Flag array of the concrete depth-20 counterexample input. -/
def cexFlagsB : List Bool :=
  [true, false, false, false, false, false, false, false, false, false,
   false, false, false, false, false, false, false, false, false, false]

set_option maxRecDepth 1000000 in
/-- C2 (counterexample): at a concrete leaf, depth-20 sibling array and
flag array, the BN254 `compute_merkle_root` differs from root-from-path
as the spec words it, refuting the claim that every implementation
follows the flag-true-means-right convention. -/
theorem bn254_root_convention_counterexample :
    compute_merkle_rootB ⟨1⟩ cexPathB cexFlagsB
      ≠ specRootFromPath hash_pairB ⟨1⟩ cexPathB cexFlagsB := by
  have p0 : hash_pairB (Bn254Field.mk 1) (Bn254Field.mk 2) = Bn254Field.mk 8349511458480813937895821740035431596287342324692117567489074838439497164593 := by decide
  have p1 : hash_pairB (Bn254Field.mk 0) (Bn254Field.mk 8349511458480813937895821740035431596287342324692117567489074838439497164593) = Bn254Field.mk 10280068286883790922906554345237542188406683531621104700849746865975998029752 := by decide
  have p2 : hash_pairB (Bn254Field.mk 0) (Bn254Field.mk 10280068286883790922906554345237542188406683531621104700849746865975998029752) = Bn254Field.mk 6757660136499263245997730855714079125237433317207546836118203834086806090622 := by decide
  have p3 : hash_pairB (Bn254Field.mk 0) (Bn254Field.mk 6757660136499263245997730855714079125237433317207546836118203834086806090622) = Bn254Field.mk 2801887894468178218516360149138177344435041127780559757229283933956563527773 := by decide
  have p4 : hash_pairB (Bn254Field.mk 0) (Bn254Field.mk 2801887894468178218516360149138177344435041127780559757229283933956563527773) = Bn254Field.mk 3711854376146688344509867383059859987424042637235577764535586723794803262780 := by decide
  have p5 : hash_pairB (Bn254Field.mk 0) (Bn254Field.mk 3711854376146688344509867383059859987424042637235577764535586723794803262780) = Bn254Field.mk 15869770957845118889637873649475067873746399697839274856454755519046837486396 := by decide
  have p6 : hash_pairB (Bn254Field.mk 0) (Bn254Field.mk 15869770957845118889637873649475067873746399697839274856454755519046837486396) = Bn254Field.mk 7343693653993854900706258395190259757189415681583910553068404984098845409680 := by decide
  have p7 : hash_pairB (Bn254Field.mk 0) (Bn254Field.mk 7343693653993854900706258395190259757189415681583910553068404984098845409680) = Bn254Field.mk 2916686844650351703447215210409428642911079708533815304499307749711556917967 := by decide
  have p8 : hash_pairB (Bn254Field.mk 0) (Bn254Field.mk 2916686844650351703447215210409428642911079708533815304499307749711556917967) = Bn254Field.mk 18286234700847793298973052966188644867890659186974591982670043178920074048669 := by decide
  have p9 : hash_pairB (Bn254Field.mk 0) (Bn254Field.mk 18286234700847793298973052966188644867890659186974591982670043178920074048669) = Bn254Field.mk 14654565803052405518957625304179297169731806086531255621821334341485750192188 := by decide
  have p10 : hash_pairB (Bn254Field.mk 0) (Bn254Field.mk 14654565803052405518957625304179297169731806086531255621821334341485750192188) = Bn254Field.mk 927687565197658863922859886830683297068841236788246042955383157199416112727 := by decide
  have p11 : hash_pairB (Bn254Field.mk 0) (Bn254Field.mk 927687565197658863922859886830683297068841236788246042955383157199416112727) = Bn254Field.mk 1083413644312610169247233510618715210754350798052806678292364614708326269049 := by decide
  have p12 : hash_pairB (Bn254Field.mk 0) (Bn254Field.mk 1083413644312610169247233510618715210754350798052806678292364614708326269049) = Bn254Field.mk 6541214188406930694742553443739712182839990833716676524955968688240290984628 := by decide
  have p13 : hash_pairB (Bn254Field.mk 0) (Bn254Field.mk 6541214188406930694742553443739712182839990833716676524955968688240290984628) = Bn254Field.mk 14505889198764744974852887258320176499021099826597239609589320498537361097829 := by decide
  have p14 : hash_pairB (Bn254Field.mk 0) (Bn254Field.mk 14505889198764744974852887258320176499021099826597239609589320498537361097829) = Bn254Field.mk 2416388839052685253210607120948024623292064203049605730773133570295997320554 := by decide
  have p15 : hash_pairB (Bn254Field.mk 0) (Bn254Field.mk 2416388839052685253210607120948024623292064203049605730773133570295997320554) = Bn254Field.mk 9566768631915516483642380442694011009275676422502118861692611619715323179487 := by decide
  have p16 : hash_pairB (Bn254Field.mk 0) (Bn254Field.mk 9566768631915516483642380442694011009275676422502118861692611619715323179487) = Bn254Field.mk 19296338740265072182367594734592628518439898478834678524012971067240549981631 := by decide
  have p17 : hash_pairB (Bn254Field.mk 0) (Bn254Field.mk 19296338740265072182367594734592628518439898478834678524012971067240549981631) = Bn254Field.mk 8414439334016762176987612255205425111528623855985674034963809330014565506036 := by decide
  have p18 : hash_pairB (Bn254Field.mk 0) (Bn254Field.mk 8414439334016762176987612255205425111528623855985674034963809330014565506036) = Bn254Field.mk 2065744036334170514848540090133714247842712955475784613843520629457623925905 := by decide
  have p19 : hash_pairB (Bn254Field.mk 0) (Bn254Field.mk 2065744036334170514848540090133714247842712955475784613843520629457623925905) = Bn254Field.mk 14205147585555807391447143944233746425845596657668573964436338041787174464809 := by decide
  have q0 : hash_pairB (Bn254Field.mk 2) (Bn254Field.mk 1) = Bn254Field.mk 38747514695235894865456078020496102452235998348448993305999535608160718530 := by decide
  have q1 : hash_pairB (Bn254Field.mk 38747514695235894865456078020496102452235998348448993305999535608160718530) (Bn254Field.mk 0) = Bn254Field.mk 4968362164222598945232763621434926597664507738582887108605970609635513185785 := by decide
  have q2 : hash_pairB (Bn254Field.mk 4968362164222598945232763621434926597664507738582887108605970609635513185785) (Bn254Field.mk 0) = Bn254Field.mk 7309909003747835673002552363749277229281117592863446314506582490510448705190 := by decide
  have q3 : hash_pairB (Bn254Field.mk 7309909003747835673002552363749277229281117592863446314506582490510448705190) (Bn254Field.mk 0) = Bn254Field.mk 16429164870494060018345162639438449871158513038246151948108209934905173708935 := by decide
  have q4 : hash_pairB (Bn254Field.mk 16429164870494060018345162639438449871158513038246151948108209934905173708935) (Bn254Field.mk 0) = Bn254Field.mk 14380721068978265661540985317438513794278998813596212155880247425557438664207 := by decide
  have q5 : hash_pairB (Bn254Field.mk 14380721068978265661540985317438513794278998813596212155880247425557438664207) (Bn254Field.mk 0) = Bn254Field.mk 706083882672443857425653935482297380998097894109823887579479336948743091542 := by decide
  have q6 : hash_pairB (Bn254Field.mk 706083882672443857425653935482297380998097894109823887579479336948743091542) (Bn254Field.mk 0) = Bn254Field.mk 401369881527114916671803304625875341285749009004446693761081149233115840127 := by decide
  have q7 : hash_pairB (Bn254Field.mk 401369881527114916671803304625875341285749009004446693761081149233115840127) (Bn254Field.mk 0) = Bn254Field.mk 11437695565616390621242646433605546315307668424510397124518211777660291215794 := by decide
  have q8 : hash_pairB (Bn254Field.mk 11437695565616390621242646433605546315307668424510397124518211777660291215794) (Bn254Field.mk 0) = Bn254Field.mk 21243121403567989083114765713012609604627219476826029021316766179417684939462 := by decide
  have q9 : hash_pairB (Bn254Field.mk 21243121403567989083114765713012609604627219476826029021316766179417684939462) (Bn254Field.mk 0) = Bn254Field.mk 5252017659549695702604462951145272443296101239413220382898637724991789048712 := by decide
  have q10 : hash_pairB (Bn254Field.mk 5252017659549695702604462951145272443296101239413220382898637724991789048712) (Bn254Field.mk 0) = Bn254Field.mk 16581161602817719000377561635972422781081600044363264932332278556229998313202 := by decide
  have q11 : hash_pairB (Bn254Field.mk 16581161602817719000377561635972422781081600044363264932332278556229998313202) (Bn254Field.mk 0) = Bn254Field.mk 16190939267263486361579950401159183325382574555167619739602124437900633472767 := by decide
  have q12 : hash_pairB (Bn254Field.mk 16190939267263486361579950401159183325382574555167619739602124437900633472767) (Bn254Field.mk 0) = Bn254Field.mk 15552772946482741327411553909333398228107134142114361012269249162967577048465 := by decide
  have q13 : hash_pairB (Bn254Field.mk 15552772946482741327411553909333398228107134142114361012269249162967577048465) (Bn254Field.mk 0) = Bn254Field.mk 4615599673911045280378683441889799474131829084569241106495304932036419804551 := by decide
  have q14 : hash_pairB (Bn254Field.mk 4615599673911045280378683441889799474131829084569241106495304932036419804551) (Bn254Field.mk 0) = Bn254Field.mk 908094587405814792512866806222852080769750345580172417948179280908274771187 := by decide
  have q15 : hash_pairB (Bn254Field.mk 908094587405814792512866806222852080769750345580172417948179280908274771187) (Bn254Field.mk 0) = Bn254Field.mk 8308402835576341259545760460574370877594525231718491284985062427065027120465 := by decide
  have q16 : hash_pairB (Bn254Field.mk 8308402835576341259545760460574370877594525231718491284985062427065027120465) (Bn254Field.mk 0) = Bn254Field.mk 5417858906390245929787108746304304284036313086811935715498869518825931231504 := by decide
  have q17 : hash_pairB (Bn254Field.mk 5417858906390245929787108746304304284036313086811935715498869518825931231504) (Bn254Field.mk 0) = Bn254Field.mk 14778223443705988274234138962541911862323138273114339261571395329441902536858 := by decide
  have q18 : hash_pairB (Bn254Field.mk 14778223443705988274234138962541911862323138273114339261571395329441902536858) (Bn254Field.mk 0) = Bn254Field.mk 17474585356409896158621830566271503234873465838624502007770707382942637597338 := by decide
  have q19 : hash_pairB (Bn254Field.mk 17474585356409896158621830566271503234873465838624502007770707382942637597338) (Bn254Field.mk 0) = Bn254Field.mk 18513988568827005110793261915211231059214831393156404535066832508863994951804 := by decide
  simp only [compute_merkle_rootB, specRootFromPath, cexPathB, cexFlagsB, List.zip,
    List.zipWith, bnMerkleGo, specRootGo, if_true, if_false, Bool.false_eq_true,
    p0, p1, p2, p3, p4, p5, p6, p7, p8, p9,
    p10, p11, p12, p13, p14, p15, p16, p17, p18, p19,
    q0, q1, q2, q3, q4, q5, q6, q7, q8, q9,
    q10, q11, q12, q13, q14, q15, q16, q17, q18, q19]
  decide

/-- The depth-20 sibling array that `get_proof 0` returns for the
two-leaf tree. -/
def proofPath2 : List Nat :=
  [2, 0, 0, 0, 0, 0, 0, 0, 0, 0, 0, 0, 0, 0, 0, 0, 0, 0, 0, 0]

/-- The depth-20 flag array that `get_proof 0` returns for the two-leaf
tree (level 0 computed, the rest the preinitialized default true). -/
def proofFlags2 : List Bool :=
  [false, true, true, true, true, true, true, true, true, true,
   true, true, true, true, true, true, true, true, true, true]

set_option maxRecDepth 1000000 in
/-- C3: the claim says the builder, `get_proof` and
`compute_merkle_root_slice` round-trip to `tree.root()` for every tree of
at least two leaves.  On the two-leaf tree [1, 2] the proof for leaf 0
folds to a 20-level hash chain starting from `hash_pair 2 1`, while the
root is `hash_pair 1 2`: the round-trip fails, exactly as the disabled
source tests (ignored with "MerkleTree builder needs path_indices fix")
record. -/
theorem merkle_roundtrip_fails_on_two_leaves :
    (MerkleTree.new [1, 2]).get_proof 0 = some (proofPath2, proofFlags2)
    ∧ (MerkleTree.new [1, 2]).root = hash_pair 1 2
    ∧ compute_merkle_root_slice 1 proofPath2 proofFlags2 ≠ (MerkleTree.new [1, 2]).root := by
  have hroot : hash_pair 1 2 = 332434002 := by decide
  have ht : MerkleTree.new [1, 2] = ⟨[1, 2], [[1, 2], [332434002]]⟩ := by
    rw [MerkleTree.new, buildFrom_pair, hroot]
  have e0 : hash_pair 2 1 = 1261181717 := by decide
  have e1 : hash_pair 1261181717 0 = 921417281 := by decide
  have e2 : hash_pair 921417281 0 = 1801078822 := by decide
  have e3 : hash_pair 1801078822 0 = 163435864 := by decide
  have e4 : hash_pair 163435864 0 = 1805614259 := by decide
  have e5 : hash_pair 1805614259 0 = 452313512 := by decide
  have e6 : hash_pair 452313512 0 = 1871509288 := by decide
  have e7 : hash_pair 1871509288 0 = 1280784812 := by decide
  have e8 : hash_pair 1280784812 0 = 1759393829 := by decide
  have e9 : hash_pair 1759393829 0 = 104188146 := by decide
  have e10 : hash_pair 104188146 0 = 883164038 := by decide
  have e11 : hash_pair 883164038 0 = 1286364443 := by decide
  have e12 : hash_pair 1286364443 0 = 1392662461 := by decide
  have e13 : hash_pair 1392662461 0 = 552288844 := by decide
  have e14 : hash_pair 552288844 0 = 523050285 := by decide
  have e15 : hash_pair 523050285 0 = 1787862272 := by decide
  have e16 : hash_pair 1787862272 0 = 632681692 := by decide
  have e17 : hash_pair 632681692 0 = 943601165 := by decide
  have e18 : hash_pair 943601165 0 = 1619682378 := by decide
  have e19 : hash_pair 1619682378 0 = 1813932800 := by decide
  refine ⟨?_, ?_, ?_⟩
  · rw [ht]; decide
  · rw [ht, hroot]; decide
  · rw [ht]
    simp only [compute_merkle_root_slice, proofPath2, proofFlags2, List.zip, List.zipWith,
      merkleSliceGo, if_true, if_false, Bool.false_eq_true,
      e0, e1, e2, e3, e4, e5, e6, e7, e8, e9,
      e10, e11, e12, e13, e14, e15, e16, e17, e18, e19]
    decide

end Noctis

